import Mathlib

/-!
Verification of the Aggregation & Reporting Engine of a team task/project
tracker (Next.js + Supabase source).

The source is shallowly embedded: each server action or client helper that
the claims mention is translated into a pure Lean function over explicit
record lists (the entity store) and explicit actor/now parameters (the
authenticated session and the wall clock, threaded in as arguments).

JavaScript conventions captured by the embedding:
 - `string | null` fields become `Option String`; a JS truthiness test on a
   string (`if (s)`) is `s ≠ ""` on the present case and false on `null`.
 - `number | undefined` fields become `Option Nat`; truthiness on a number
   treats `0` and `undefined` alike as falsy.
 - JS `<` / `>=` on strings is code-unit lexicographic comparison; it is
   embedded as an explicit lexicographic comparison on the char list.
 - `Array.prototype.sort(cmp)` is a comparison sort returning some sorted
   permutation; tie order is unspecified by the spec, so it is embedded as
   `List.insertionSort` over the relation `cmp a b ≤ 0`.
 - `new Date(s).getTime()` on ISO-8601 date strings is strictly monotone in
   the string, with the absent date mapped to epoch zero; comparisons on
   `getTime` values are embedded as comparisons on the strings, with the
   absent date mapped to `""` (which sorts before every date string).
-/

namespace ProjectMgmt

/-! ## JS string primitives -/

/-- Lexicographic `<` on char lists: the embedding of the JS `<` operator on
strings (code-unit comparison; for the ASCII data handled here code points
and code units coincide). -/
def strLtB : List Char → List Char → Bool
  | [], [] => false
  | [], _ :: _ => true
  | _ :: _, [] => false
  | a :: as, b :: bs =>
    if a < b then true else if b < a then false else strLtB as bs

/-- JS `a < b` on strings. -/
def jsLt (a b : String) : Bool := strLtB a.data b.data

/-- JS `a >= b` on strings (`!(a < b)`). -/
def jsGe (a b : String) : Bool := !(jsLt a b)

/-- JS `a <= b` on strings (`!(b < a)`). -/
def jsLe (a b : String) : Bool := !(jsLt b a)

/-- JS `String.prototype.includes`: substring containment. -/
def jsIncludes (s sub : String) : Bool := decide (sub.data <:+: s.data)

/-- JS `String.prototype.toLowerCase`, char by char. -/
def jsToLower (s : String) : String := String.mk (s.data.map Char.toLower)

/-- JS `String.prototype.trim`: strip whitespace from both ends. -/
def jsTrim (s : String) : String :=
  String.mk
    (((s.data.dropWhile Char.isWhitespace).reverse.dropWhile
        Char.isWhitespace).reverse)

/-! ## Data model

Record shapes as stored in Supabase and consumed by the actions
(`tasks`, `time_entries`, `task_comments`, `team_members` tables). -/

/-- A `tasks` row (src/unnamed/part_003, `TaskWithMetadata` minus the
derived enrichment). -/
structure Task where
  id : String
  title : String
  description : Option String
  status : String
  priority : Option String
  due_date : Option String
  estimated_time_minutes : Option Nat
  assignee_id : Option String
  creator_id : Option String
  project_id : Option String
  created_at : String
  updated_at : String
deriving Repr, DecidableEq

/-- A `time_entries` row. -/
structure TimeEntry where
  id : String
  task_id : String
  user_id : String
  minutes : Nat
  created_at : String
deriving Repr, DecidableEq

/-- A `team_members` row for the single hard-coded team. -/
structure TeamMembership where
  user_id : String
  role : Option String
deriving Repr, DecidableEq

/-! ## Rollup Calculator -/

/-- `timeEntries?.reduce((sum, entry) => sum + entry.minutes, 0) || 0`
(src/unnamed/part_003 `getAllTasks`, and identically in
project-actions.ts / team-actions.ts): total tracked minutes for the
given entries. -/
def taskTrackedMinutes (entries : List TimeEntry) : Nat :=
  entries.foldl (fun sum entry => sum + entry.minutes) 0

/-- Number of tasks in the list whose status is `complete`
(`tasks?.filter((t) => t.status === 'complete').length || 0`). -/
def completedTaskCount (tasks : List Task) : Nat :=
  (tasks.filter (fun t => t.status == "complete")).length

/-- `totalTasks > 0 ? Math.round((completedTaskCount / totalTasks) * 100) : 0`
(project-actions.ts, `getAllProjects` / `getProjectById`).
For `x ≥ 0`, `Math.round x = ⌊x + 1/2⌋`, so with `x = 100·c/t` this is
`⌊(200·c + t) / (2·t)⌋`, written here in exact natural arithmetic. -/
def progressPercentage (tasks : List Task) : Nat :=
  let completed := completedTaskCount tasks
  let total := tasks.length
  if total > 0 then (200 * completed + total) / (2 * total) else 0

/-- The spec's rounding rule, from its words: round-half-up of the exact
ratio `num / den`, i.e. `⌊num/den + 1/2⌋ = ⌊(2·num + den) / (2·den)⌋`. -/
def roundHalfUp (num den : Nat) : Nat := (2 * num + den) / (2 * den)

/-- Members with a time entry created at or after `cutoff`
(`.gte('created_at', thirtyDaysAgo)`, then collected into a JS `Set`),
as a finite set. -/
def recentEntryMembers (entries : List TimeEntry) (cutoff : String) :
    Finset String :=
  ((entries.filter (fun e => jsGe e.created_at cutoff)).map
    (fun e => e.user_id)).toFinset

/-- Assignees of tasks with status `complete` updated at or after `cutoff`
(`.eq('status','complete').gte('updated_at', ...)`, then
`if (t.assignee_id) activeUserIds.add(...)` — the truthiness test skips
both `null` and the empty string), as a finite set. -/
def recentCompleters (tasks : List Task) (cutoff : String) : Finset String :=
  ((tasks.filter
      (fun t => t.status == "complete" && jsGe t.updated_at cutoff)).filterMap
    (fun t =>
      match t.assignee_id with
      | some a => if a = "" then none else some a
      | none => none)).toFinset

/-- `active_members` of team-actions.ts `getTeamStats`: the size of the JS
`Set` built by inserting the user id of every recent time entry and the
assignee of every recently completed task. `cutoff` is the evaluation
instant minus the 30-day window, passed explicitly. -/
def activeMemberCount (entries : List TimeEntry) (tasks : List Task)
    (cutoff : String) : Nat :=
  (recentEntryMembers entries cutoff ∪ recentCompleters tasks cutoff).card

/-! ## Filter/Sort Pipeline (src/unnamed/part_000, `applyFilters`)

The pipeline runs client-side over the enriched task rows
(`TaskWithMetadata`): the stored task fields plus the assignee display name
and the derived rollups. -/

/-- An enriched task row as consumed by the all-tasks page
(`TaskWithMetadata`). `assignee_name` is `assignee?.full_name`. -/
structure TaskRow where
  id : String
  title : String
  description : Option String
  status : String
  priority : Option String
  due_date : Option String
  estimated_time_minutes : Option Nat
  assignee_id : Option String
  created_at : String
  assignee_name : Option String
  total_tracked_minutes : Option Nat
  comment_count : Option Nat
deriving Repr, DecidableEq

/-- The page's filter/sort state; `""` is the unset (falsy) value for every
field, matching the component's initial state. -/
structure FilterState where
  searchQuery : String := ""
  statusFilter : String := ""
  assigneeFilter : String := ""
  priorityFilter : String := ""
  dueDateFrom : String := ""
  dueDateTo : String := ""
  sort_by : String := ""
  sort_order : String := ""
deriving Repr, DecidableEq

/-- Free-text match: `task.title.toLowerCase().includes(query) ||
(task.description && task.description.toLowerCase().includes(query))`,
with `query` already lower-cased. -/
def searchPred (query : String) (t : TaskRow) : Bool :=
  jsIncludes (jsToLower t.title) query ||
    (match t.description with
     | some d => jsIncludes (jsToLower d) query
     | none => false)

/-- `if (searchQuery.trim()) { const query = searchQuery.toLowerCase(); ... }` -/
def searchStep (searchQuery : String) (l : List TaskRow) : List TaskRow :=
  if jsTrim searchQuery ≠ "" then l.filter (searchPred (jsToLower searchQuery))
  else l

/-- `if (statusFilter) filtered.filter((task) => task.status === statusFilter)` -/
def statusStep (statusFilter : String) (l : List TaskRow) : List TaskRow :=
  if statusFilter ≠ "" then l.filter (fun t => t.status == statusFilter) else l

/-- `if (assigneeFilter) filtered.filter((task) => task.assignee_id === assigneeFilter)`
(a `null` assignee is never `===` to the filter string). -/
def assigneeStep (assigneeFilter : String) (l : List TaskRow) : List TaskRow :=
  if assigneeFilter ≠ "" then
    l.filter (fun t => t.assignee_id == some assigneeFilter)
  else l

/-- `if (priorityFilter) filtered.filter((task) => task.priority === priorityFilter)` -/
def priorityStep (priorityFilter : String) (l : List TaskRow) : List TaskRow :=
  if priorityFilter ≠ "" then
    l.filter (fun t => t.priority == some priorityFilter)
  else l

/-- `task.due_date && task.due_date >= dueDateFrom`: a missing (or empty,
hence falsy) due date never matches. -/
def dueFromPred (dueDateFrom : String) (t : TaskRow) : Bool :=
  match t.due_date with
  | some d => d ≠ "" && jsGe d dueDateFrom
  | none => false

/-- `if (dueDateFrom) filtered.filter(...)` -/
def dueFromStep (dueDateFrom : String) (l : List TaskRow) : List TaskRow :=
  if dueDateFrom ≠ "" then l.filter (dueFromPred dueDateFrom) else l

/-- `task.due_date && task.due_date <= dueDateTo` -/
def dueToPred (dueDateTo : String) (t : TaskRow) : Bool :=
  match t.due_date with
  | some d => d ≠ "" && jsLe d dueDateTo
  | none => false

/-- `if (dueDateTo) filtered.filter(...)` -/
def dueToStep (dueDateTo : String) (l : List TaskRow) : List TaskRow :=
  if dueDateTo ≠ "" then l.filter (dueToPred dueDateTo) else l

/-- The filter half of `applyFilters`: the six conditional filters in source
order (search, status, assignee, priority, due-from, due-to). -/
def filterTasks (f : FilterState) (tasks : List TaskRow) : List TaskRow :=
  dueToStep f.dueDateTo
    (dueFromStep f.dueDateFrom
      (priorityStep f.priorityFilter
        (assigneeStep f.assigneeFilter
          (statusStep f.statusFilter
            (searchStep f.searchQuery tasks)))))

/-- `const priorityOrder = { urgent: 4, high: 3, normal: 2, low: 1 };
priorityOrder[task.priority] || 0` — unset (and unknown) priority ranks 0. -/
def priorityRank : Option String → Nat
  | some "urgent" => 4
  | some "high" => 3
  | some "normal" => 2
  | some "low" => 1
  | _ => 0

/-- Sort key for `due_date`: `a.due_date ? new Date(a.due_date).getTime() : 0`.
`getTime` is strictly monotone in the ISO date string, and epoch zero sorts
before every date, so the key is the string itself with `""` for the falsy
cases. -/
def dateKey : Option String → String
  | some d => if d = "" then "" else d
  | none => ""

/-- The JS comparator branch
`aValue > bValue ? 1 : aValue < bValue ? -1 : 0` (ascending) /
`aValue < bValue ? 1 : aValue > bValue ? -1 : 0` (descending),
for numeric sort values. -/
def jsCmpNum (asc : Bool) (x y : Nat) : Int :=
  if asc then (if x > y then 1 else if x < y then -1 else 0)
  else (if x < y then 1 else if x > y then -1 else 0)

/-- Same comparator for string sort values (JS relational operators on
strings are lexicographic). -/
def jsCmpStr (asc : Bool) (x y : String) : Int :=
  if asc then (if jsLt y x then 1 else if jsLt x y then -1 else 0)
  else (if jsLt x y then 1 else if jsLt y x then -1 else 0)

/-- The sort comparator of `applyFilters`, with defaults already resolved
(`sb ∈ {created_at, priority, due_date, assignee}`, `so ∈ {asc, desc}`). -/
def sortComparator (sb so : String) (a b : TaskRow) : Int :=
  let asc := so == "asc"
  match sb with
  | "priority" => jsCmpNum asc (priorityRank a.priority) (priorityRank b.priority)
  | "due_date" => jsCmpStr asc (dateKey a.due_date) (dateKey b.due_date)
  | "assignee" =>
    jsCmpStr asc (a.assignee_name.getD "") (b.assignee_name.getD "")
  | _ => jsCmpStr asc a.created_at b.created_at

/-- `applyFilters`: the conditional filters, then
`filtered.sort(comparator)` with `sort_by || 'created_at'` and
`sort_order || 'desc'`. `Array.prototype.sort` is embedded as a sorted
permutation under `comparator a b ≤ 0` (tie order is unspecified). -/
def applyFilters (f : FilterState) (tasks : List TaskRow) : List TaskRow :=
  let sb := if f.sort_by = "" then "created_at" else f.sort_by
  let so := if f.sort_order = "" then "desc" else f.sort_order
  List.insertionSort (fun a b => sortComparator sb so a b ≤ 0)
    (filterTasks f tasks)

/-! ## Report Exporter (src/unnamed/part_000, `exportToCSV`) -/

/-- `formatTime`: render minutes as `{H}h {M}m` / `{H}h` / `{M}m`. -/
def formatTime (minutes : Nat) : String :=
  let hours := minutes / 60
  let mins := minutes % 60
  if hours > 0 && mins > 0 then
    toString hours ++ "h " ++ toString mins ++ "m"
  else if hours > 0 then toString hours ++ "h"
  else toString mins ++ "m"

/-- One CSV row of `exportToCSV`, in the source's fixed column order.
`fmt` abstracts `new Date(s).toLocaleDateString()`, whose rendering is
locale-determined by the environment; every placeholder branch is explicit.
JS `||`/`?:` falsiness on the optional fields is written out: empty strings
and zero numbers take the placeholder branch. -/
def csvRow (fmt : String → String) (t : TaskRow) : List String :=
  [ t.title,
    t.status,
    (match t.assignee_name with
     | some n => if n = "" then "Unassigned" else n
     | none => "Unassigned"),
    (match t.priority with
     | some p => if p = "" then "normal" else p
     | none => "normal"),
    (match t.due_date with
     | some d => if d = "" then "" else fmt d
     | none => ""),
    (match t.estimated_time_minutes with
     | some n => if n = 0 then "" else formatTime n
     | none => ""),
    (match t.total_tracked_minutes with
     | some n => if n = 0 then "0h" else formatTime n
     | none => "0h"),
    (match t.comment_count with
     | some n => toString n
     | none => "0"),
    fmt t.created_at ]

/-- `filteredTasks.map((task) => [...])`: the exported data rows, in the
order of the already filtered/sorted collection. -/
def exportRows (fmt : String → String) (tasks : List TaskRow) :
    List (List String) :=
  tasks.map (csvRow fmt)

/-! ## Mutation Coordinator: task mutations (src/unnamed/part_003)

Each server action is a function of the task store (the `tasks` table as a
list), the authenticated actor id, and the wall-clock instant `now`
(`new Date().toISOString()`), returning the new store and the optional
error of the `{ error }` result object. -/

/-- `updateTaskStatus`: select `assignee_id, creator_id` by id, fail with
the authorization error when the row is absent or the actor is neither
(`!task || (task.assignee_id !== user.id && task.creator_id !== user.id)`),
else set `status` and `updated_at`. -/
def updateTaskStatus (store : List Task) (actor taskId status now : String) :
    List Task × Option String :=
  match store.find? (fun t => t.id == taskId) with
  | none => (store, some "Not authorized to update this task")
  | some task =>
    if task.assignee_id == some actor || task.creator_id == some actor then
      (store.map (fun t =>
        if t.id == taskId then { t with status := status, updated_at := now }
        else t), none)
    else (store, some "Not authorized to update this task")

/-- `updateTaskDescription`: same authorization check, then set
`description: description || null` and `updated_at`. -/
def updateTaskDescription
    (store : List Task) (actor taskId description now : String) :
    List Task × Option String :=
  match store.find? (fun t => t.id == taskId) with
  | none => (store, some "Not authorized to update this task")
  | some task =>
    if task.assignee_id == some actor || task.creator_id == some actor then
      (store.map (fun t =>
        if t.id == taskId then
          { t with
            description := if description = "" then none else some description,
            updated_at := now }
        else t), none)
    else (store, some "Not authorized to update this task")

/-- The partial update of `bulkUpdateTasks`
(`updates: { status?: string; assignee_id?: string }`). -/
structure BulkUpdates where
  status : Option String := none
  assignee_id : Option String := none
deriving Repr, DecidableEq

/-- The `updateData` object applied to one row: `updated_at` always;
`status` only when supplied and truthy (`if (updates.status)`);
`assignee_id` whenever supplied, with the falsy empty string stored as
`null` (`updates.assignee_id || null`). -/
def bulkApply (updates : BulkUpdates) (now : String) (t : Task) : Task :=
  let t1 := { t with updated_at := now }
  let t2 :=
    match updates.status with
    | some s => if s ≠ "" then { t1 with status := s } else t1
    | none => t1
  match updates.assignee_id with
  | some a => { t2 with assignee_id := if a = "" then none else some a }
  | none => t2

/-- `bulkUpdateTasks`: after the authentication check it issues a single
`update(updateData).in('id', taskIds)` — there is no per-task
assignee/creator authorization check on this path; every named row is
updated. `_actor` is the authenticated actor, unused past authentication. -/
def bulkUpdateTasks (store : List Task) (_actor : String)
    (taskIds : List String) (updates : BulkUpdates) (now : String) :
    List Task × Option String :=
  (store.map (fun t =>
    if taskIds.contains t.id then bulkApply updates now t else t), none)

/-! ## Team membership operations (team-actions.ts) -/

/-- `team_members` rows with role `admin`
(`count(...).eq('role', 'admin')`). -/
def adminCount (ms : List TeamMembership) : Nat :=
  (ms.filter (fun m => m.role == some "admin")).length

/-- `currentUserMember?.role` for an actor: the role of their membership
row, if any. -/
def memberRole (ms : List TeamMembership) (userId : String) : Option String :=
  (ms.find? (fun m => m.user_id == userId)).bind (fun m => m.role)

/-- `updateMemberRole`: require the actor's current role to be `admin`;
when a self-demotion (`newRole === 'member' && userId === user.id`) would
leave `adminCount <= 1`, fail with the last-admin error; otherwise set the
target's role. The last-admin guard is only consulted on self-demotion. -/
def updateMemberRole (ms : List TeamMembership) (actor userId newRole : String) :
    List TeamMembership × Option String :=
  if memberRole ms actor ≠ some "admin" then
    (ms, some "Only admins can change member roles")
  else if newRole == "member" && userId == actor && adminCount ms ≤ 1 then
    (ms, some "Cannot remove the last admin")
  else
    (ms.map (fun m =>
      if m.user_id == userId then { m with role := some newRole } else m),
     none)

/-- `removeMember`: require an admin actor; refuse self-removal
(`Cannot remove yourself`) before any admin counting; then, when the target
is an admin and `adminCount <= 1`, fail with the last-admin error; else
delete the target's membership row. -/
def removeMember (ms : List TeamMembership) (actor userId : String) :
    List TeamMembership × Option String :=
  if memberRole ms actor ≠ some "admin" then
    (ms, some "Only admins can remove members")
  else if userId == actor then (ms, some "Cannot remove yourself")
  else if memberRole ms userId == some "admin" && adminCount ms ≤ 1 then
    (ms, some "Cannot remove the last admin")
  else (ms.filter (fun m => !(m.user_id == userId)), none)

/-! ## Optimistic comment submission (TaskComments.tsx, `handleSubmit`) -/

/-- A profile row (`full_name, user_id`). -/
structure Profile where
  full_name : String
  user_id : String
deriving Repr, DecidableEq

/-- A comment attachment; `mime` is the source's `type` field. -/
structure CommentAttachment where
  url : String
  name : String
  mime : String
  size : Nat
deriving Repr, DecidableEq

/-- A comment record as held in the component state. -/
structure TaskComment where
  id : String
  content : String
  created_at : String
  attachments : Option (List CommentAttachment)
  user : Option Profile
deriving Repr, DecidableEq

/-- The component's local state: comment list, the input form (text and
uploaded files), the surfaced error, and the loading flag. -/
structure CommentsState where
  comments : List TaskComment
  newComment : String
  uploadedFiles : List CommentAttachment
  error : Option String
  loading : Bool
deriving Repr, DecidableEq

/-- Scan for the `>` closing a tag: the chars after the first `>` of the
input, if one exists (the `[^>]*>` part of the strip regex). -/
def dropTag : List Char → Option (List Char)
  | [] => none
  | c :: rest => if c = '>' then some rest else dropTag rest

/-- `newComment.replace(/<[^>]*>/g, '')` on the char list: each `<` with a
later `>` is deleted together with everything up to that `>`; a `<` with no
closing `>` is kept. The scan consumes at least one char per step, so with
`fuel` initialised to the input length the `0` case is never reached. -/
def stripTagsGo : Nat → List Char → List Char
  | 0, _ => []
  | _ + 1, [] => []
  | fuel + 1, c :: rest =>
    if c = '<' then
      match dropTag rest with
      | some rest2 => stripTagsGo fuel rest2
      | none => c :: stripTagsGo fuel rest
    else c :: stripTagsGo fuel rest

/-- `newComment.replace(/<[^>]*>/g, '')`. -/
def stripTags (s : String) : String :=
  String.mk (stripTagsGo s.data.length s.data)

/-- The pending record built for the optimistic apply: temporary identity
`temp-` + `Date.now()`, the proposed content, the current instant, the
uploaded files (or `null` when none), and the current user's profile. -/
def optimisticComment (nowMs : Nat) (nowIso content : String)
    (files : List CommentAttachment) (currentUser : Option Profile) :
    TaskComment :=
  { id := "temp-" ++ toString nowMs,
    content := content,
    created_at := nowIso,
    attachments := if files.length > 0 then some files else none,
    user := currentUser }

/-- The optimistic apply: append the pending record to the visible list and
clear the form (`setComments(prev => [...prev, optimisticComment])`,
`setNewComment("")`, `setUploadedFiles([])`). -/
def optimisticApply (st : CommentsState) (pending : TaskComment) :
    CommentsState :=
  { st with
    comments := st.comments ++ [pending],
    newComment := "",
    uploadedFiles := [],
    error := none,
    loading := true }

/-- The Entity Store Gateway's terminal answer for one submission. -/
inductive GatewayResult where
  | ok (comment : TaskComment)
  | fail (msg : String)
deriving Repr, DecidableEq

/-- Reconciliation after `addComment` returns: on failure drop the pending
record by its identity, surface the error, and restore the saved text and
files; on success replace the pending record in place by the server
record. -/
def resolveSubmit (st1 : CommentsState) (tempId commentToSave : String)
    (filesToSave : List CommentAttachment) (result : GatewayResult) :
    CommentsState :=
  match result with
  | .fail msg =>
    { st1 with
      comments := st1.comments.filter (fun c => c.id ≠ tempId),
      error := some msg,
      newComment := commentToSave,
      uploadedFiles := filesToSave,
      loading := false }
  | .ok data =>
    { st1 with
      comments := st1.comments.map (fun c => if c.id = tempId then data else c),
      loading := false }

/-- `handleSubmit`, as a function of the starting state, the looked-up
current user, the clock (`Date.now()` / `toISOString()`), and the Gateway's
answer: the empty-content guard, then optimistic apply, then
reconciliation. -/
def handleSubmit (st : CommentsState) (currentUser : Option Profile)
    (nowMs : Nat) (nowIso : String) (result : GatewayResult) :
    CommentsState :=
  if jsTrim (stripTags st.newComment) = "" ∧ st.uploadedFiles = [] then
    { st with error := some "Comment cannot be empty" }
  else
    let pending :=
      optimisticComment nowMs nowIso st.newComment st.uploadedFiles currentUser
    resolveSubmit (optimisticApply st pending) pending.id st.newComment
      st.uploadedFiles result

/-! ## Concrete sample data (for witnesses and counterexamples) -/

/-- A task with every optional field absent, used as a template for the
concrete examples. -/
def baseTask : Task :=
  { id := "t1", title := "Task", description := none, status := "todo",
    priority := none, due_date := none, estimated_time_minutes := none,
    assignee_id := none, creator_id := none, project_id := none,
    created_at := "2024-01-01T00:00:00.000Z",
    updated_at := "2024-01-01T00:00:00.000Z" }

/-- Three project tasks of which exactly one is complete. -/
def exampleProjectTasks : List Task :=
  [ { baseTask with id := "p1", status := "complete" },
    { baseTask with id := "p2" },
    { baseTask with id := "p3" } ]

/-- An enriched row with every optional field absent. -/
def baseRow : TaskRow :=
  { id := "r1", title := "Row", description := none, status := "todo",
    priority := none, due_date := none, estimated_time_minutes := none,
    assignee_id := none, created_at := "2024-01-01T00:00:00.000Z",
    assignee_name := none, total_tracked_minutes := none,
    comment_count := none }

/-- A task of priority `urgent`. -/
def urgentRow : TaskRow := { baseRow with id := "u", priority := some "urgent" }

/-- A task with unset priority. -/
def unsetRow : TaskRow := { baseRow with id := "n" }

/-- A task of priority `low`. -/
def lowRow : TaskRow := { baseRow with id := "l", priority := some "low" }

/-- The spec's priority-sort example collection `[urgent, unset, low]`. -/
def examplePriorityRows : List TaskRow := [urgentRow, unsetRow, lowRow]

/-- Sorting by priority, descending; no filters. -/
def prioritySortFilter : FilterState :=
  { sort_by := "priority", sort_order := "desc" }

/-- Task A of the spec's due-date example (due 2024-01-10). -/
def taskRowA : TaskRow := { baseRow with id := "A", due_date := some "2024-01-10" }

/-- Task B of the spec's due-date example (no due date). -/
def taskRowB : TaskRow := { baseRow with id := "B" }

/-- Task C of the spec's due-date example (due 2024-01-20). -/
def taskRowC : TaskRow := { baseRow with id := "C", due_date := some "2024-01-20" }

/-- The spec's due-date example filter: `due_date_from = 2024-01-15`. -/
def dueExampleFilter : FilterState := { dueDateFrom := "2024-01-15" }

/-- A task assigned to `alice` and created by `bob` (so `carol` is neither). -/
def exampleAuthTask : Task :=
  { baseTask with
    id := "t1"
    assignee_id := some "alice"
    creator_id := some "bob" }

/-- A team whose only admin is `A`, with one regular member `B`. -/
def soloAdminTeam : List TeamMembership :=
  [⟨"A", some "admin"⟩, ⟨"B", some "member"⟩]

/-- A team with two admins. -/
def twoAdminTeam : List TeamMembership :=
  [⟨"A1", some "admin"⟩, ⟨"A2", some "admin"⟩]

/-- Comment form state about to submit the text `hello`. -/
def exampleCommentState : CommentsState :=
  { comments := [], newComment := "hello", uploadedFiles := [],
    error := none, loading := false }

/-- The authoritative record the Gateway returns for the `hello`
submission. -/
def serverComment : TaskComment :=
  { id := "srv-1", content := "hello",
    created_at := "2024-03-01T00:00:00.000Z", attachments := none,
    user := some ⟨"Dana", "u1"⟩ }

/-! ## Theorems -/

theorem foldl_add_minutes (entries : List TimeEntry) (n : Nat) :
    entries.foldl (fun sum entry => sum + entry.minutes) n
      = n + (entries.map (fun e => e.minutes)).sum := by
  induction entries generalizing n with
  | nil => simp
  | cons e rest ih => simp [List.foldl_cons, ih, Nat.add_assoc]

/-- C8: `taskTrackedMinutes` is the sum of the entries' minutes, each entry
contributing exactly once, and it is 0 on the empty set of entries. -/
theorem taskTrackedMinutes_eq_sum (entries : List TimeEntry) :
    taskTrackedMinutes entries = (entries.map (fun e => e.minutes)).sum ∧
      taskTrackedMinutes [] = 0 := by
  constructor
  · simpa using foldl_add_minutes entries 0
  · rfl

/-- C3: for a non-empty task list the derived progress percentage is the
round-half-up of `100 · completedCount / totalCount`; for the empty list it
is 0 (no division-by-zero fault); and it never exceeds 100. -/
theorem progressPercentage_correct (tasks : List Task) :
    (tasks.length > 0 →
      progressPercentage tasks
        = roundHalfUp (100 * completedTaskCount tasks) tasks.length) ∧
    (tasks = [] → progressPercentage tasks = 0) ∧
    progressPercentage tasks ≤ 100 := by
  refine ⟨?_, ?_, ?_⟩
  · intro h
    simp only [progressPercentage, roundHalfUp, h, if_pos]
    have : 2 * (100 * completedTaskCount tasks) = 200 * completedTaskCount tasks := by
      ring
    rw [this]
  · intro h; simp [progressPercentage, h]
  · have hc : completedTaskCount tasks ≤ tasks.length :=
      List.length_filter_le _ _
    by_cases h : tasks.length > 0
    · simp only [progressPercentage, h, if_pos]
      have hlt :
          (200 * completedTaskCount tasks + tasks.length) / (2 * tasks.length)
            < 101 := by
        rw [Nat.div_lt_iff_lt_mul (by omega : 0 < 2 * tasks.length)]
        omega
      omega
    · simp [progressPercentage, h]

/-- Concrete instance of C3: 3 tasks with 1 complete give 33, and the empty
list gives 0; discharges the hypotheses of `progressPercentage_correct` at
that input. -/
theorem progressPercentage_correct_witness :
    progressPercentage exampleProjectTasks
      = roundHalfUp (100 * completedTaskCount exampleProjectTasks)
          exampleProjectTasks.length ∧
    progressPercentage exampleProjectTasks = 33 ∧
    progressPercentage [] = 0 :=
  ⟨(progressPercentage_correct exampleProjectTasks).1 (by decide),
   by decide,
   (progressPercentage_correct []).2.1 rfl⟩

theorem truthyAssignee_eq_some (o : Option String) (m : String) :
    (match o with
      | some a => if a = "" then none else some a
      | none => none) = some m ↔ o = some m ∧ m ≠ "" := by
  cases o with
  | none => simp
  | some a =>
    by_cases ha : a = ""
    · subst ha
      simp only [if_pos rfl, Option.some.injEq]
      constructor
      · intro h; exact absurd h (by simp)
      · rintro ⟨h1, h2⟩; exact absurd h1.symm h2
    · simp only [if_neg ha, Option.some.injEq, ne_eq]
      constructor
      · intro h; subst h; exact ⟨rfl, ha⟩
      · intro h; exact h.1

/-- C9: the team's `active_members` statistic is the cardinality of the
union of the members with a time entry in the window and the (non-empty)
assignees of tasks completed in the window; membership in the union is
exactly the claimed disjunction, and inclusion–exclusion shows a member in
both sets is counted once. -/
theorem activeMemberCount_correct (entries : List TimeEntry)
    (tasks : List Task) (cutoff : String) :
    activeMemberCount entries tasks cutoff
      = (recentEntryMembers entries cutoff
          ∪ recentCompleters tasks cutoff).card ∧
    (∀ m : String,
      m ∈ recentEntryMembers entries cutoff ∪ recentCompleters tasks cutoff ↔
        ((∃ e ∈ entries, e.user_id = m ∧ jsGe e.created_at cutoff = true) ∨
         (∃ t ∈ tasks, t.status = "complete" ∧ jsGe t.updated_at cutoff = true
            ∧ t.assignee_id = some m ∧ m ≠ ""))) ∧
    (recentEntryMembers entries cutoff ∪ recentCompleters tasks cutoff).card
        + (recentEntryMembers entries cutoff
            ∩ recentCompleters tasks cutoff).card
      = (recentEntryMembers entries cutoff).card
          + (recentCompleters tasks cutoff).card := by
  refine ⟨rfl, ?_, Finset.card_union_add_card_inter _ _⟩
  intro m
  simp only [Finset.mem_union, recentEntryMembers, recentCompleters,
    List.mem_toFinset, List.mem_map, List.mem_filterMap, List.mem_filter,
    truthyAssignee_eq_some, Bool.and_eq_true, beq_iff_eq]
  constructor
  · rintro (⟨e, ⟨he, hge⟩, hm⟩ | ⟨t, ⟨ht, hst, hge⟩, hm, hne⟩)
    · exact Or.inl ⟨e, he, hm, hge⟩
    · exact Or.inr ⟨t, ht, hst, hge, hm, hne⟩
  · rintro (⟨e, he, hm, hge⟩ | ⟨t, ht, hst, hge, hm, hne⟩)
    · exact Or.inl ⟨e, ⟨he, hge⟩, hm⟩
    · exact Or.inr ⟨t, ⟨ht, hst, hge⟩, hm, hne⟩

theorem priority_desc_le (a b : TaskRow) :
    (sortComparator "priority" "desc" a b ≤ 0) ↔
      priorityRank b.priority ≤ priorityRank a.priority := by
  have h : ("desc" == "asc") = false := rfl
  simp only [sortComparator, jsCmpNum, h, Bool.false_eq_true, if_false]
  split_ifs <;> omega

theorem priority_asc_le (a b : TaskRow) :
    (sortComparator "priority" "asc" a b ≤ 0) ↔
      priorityRank a.priority ≤ priorityRank b.priority := by
  have h : ("asc" == "asc") = true := rfl
  simp only [sortComparator, jsCmpNum, h, if_true]
  split_ifs <;> omega

theorem applyFilters_eq_sort (f : FilterState) (tasks : List TaskRow) :
    applyFilters f tasks
      = List.insertionSort
          (fun a b =>
            sortComparator (if f.sort_by = "" then "created_at" else f.sort_by)
              (if f.sort_order = "" then "desc" else f.sort_order) a b ≤ 0)
          (filterTasks f tasks) := rfl

theorem applyFilters_perm (f : FilterState) (tasks : List TaskRow) :
    List.Perm (applyFilters f tasks) (filterTasks f tasks) := by
  rw [applyFilters_eq_sort]
  exact List.perm_insertionSort _ _

/-- C5: the sort ranks priorities by `{urgent:4, high:3, normal:2, low:1}`
with unset priority ranked 0, strictly below `low`; a collection sorted by
the priority key is a permutation of the filtered collection ordered by
rank (non-increasing for `desc`, non-decreasing for `asc`); and
`[urgent, unset, low]` sorted descending yields `[urgent, low, unset]`. -/
theorem prioritySort_correct :
    (priorityRank (some "urgent") = 4 ∧ priorityRank (some "high") = 3 ∧
     priorityRank (some "normal") = 2 ∧ priorityRank (some "low") = 1 ∧
     priorityRank none = 0 ∧ priorityRank none < priorityRank (some "low")) ∧
    (∀ (f : FilterState) (tasks : List TaskRow),
      f.sort_by = "priority" →
      (f.sort_order = "desc" →
        List.Perm (applyFilters f tasks) (filterTasks f tasks) ∧
        (applyFilters f tasks).Pairwise
          (fun a b => priorityRank b.priority ≤ priorityRank a.priority)) ∧
      (f.sort_order = "asc" →
        List.Perm (applyFilters f tasks) (filterTasks f tasks) ∧
        (applyFilters f tasks).Pairwise
          (fun a b => priorityRank a.priority ≤ priorityRank b.priority))) ∧
    applyFilters prioritySortFilter examplePriorityRows
      = [urgentRow, lowRow, unsetRow] := by
  refine ⟨by decide, ?_, by decide⟩
  intro f tasks hsb
  constructor
  · intro hso
    refine ⟨applyFilters_perm f tasks, ?_⟩
    rw [applyFilters_eq_sort, hsb, hso]
    simp only [if_neg (by decide : ¬("priority" = "")),
      if_neg (by decide : ¬("desc" = ""))]
    have hs :=
      @List.sorted_insertionSort TaskRow
        (fun a b => sortComparator "priority" "desc" a b ≤ 0) _
        ⟨fun a b => by
          rw [priority_desc_le, priority_desc_le]
          exact (Nat.le_total _ _).symm⟩
        ⟨fun a b c hab hbc => by
          rw [priority_desc_le] at *
          exact le_trans hbc hab⟩
        (filterTasks f tasks)
    exact hs.imp (fun hab => (priority_desc_le _ _).1 hab)
  · intro hso
    refine ⟨applyFilters_perm f tasks, ?_⟩
    rw [applyFilters_eq_sort, hsb, hso]
    simp only [if_neg (by decide : ¬("priority" = "")),
      if_neg (by decide : ¬("asc" = ""))]
    have hs :=
      @List.sorted_insertionSort TaskRow
        (fun a b => sortComparator "priority" "asc" a b ≤ 0) _
        ⟨fun a b => by
          rw [priority_asc_le, priority_asc_le]
          exact Nat.le_total _ _⟩
        ⟨fun a b c hab hbc => by
          rw [priority_asc_le] at *
          exact le_trans hab hbc⟩
        (filterTasks f tasks)
    exact hs.imp (fun hab => (priority_asc_le _ _).1 hab)

/-- Concrete instance of C5 discharging the hypotheses of
`prioritySort_correct`: the ordering facts at the spec's example
collection. -/
theorem prioritySort_correct_witness :
    List.Perm (applyFilters prioritySortFilter examplePriorityRows)
        (filterTasks prioritySortFilter examplePriorityRows) ∧
      (applyFilters prioritySortFilter examplePriorityRows).Pairwise
        (fun a b => priorityRank b.priority ≤ priorityRank a.priority) :=
  (prioritySort_correct.2.1 prioritySortFilter examplePriorityRows rfl).1 rfl

theorem mem_of_mem_dueToStep (dd : String) (l : List TaskRow) (t : TaskRow)
    (h : t ∈ dueToStep dd l) : t ∈ l := by
  unfold dueToStep at h
  split at h
  · exact List.mem_of_mem_filter h
  · exact h

theorem dueFromStep_pred (dd : String) (l : List TaskRow) (t : TaskRow)
    (hdd : dd ≠ "") (h : t ∈ dueFromStep dd l) : dueFromPred dd t = true := by
  unfold dueFromStep at h
  rw [if_pos hdd] at h
  exact List.of_mem_filter h

theorem dueToStep_pred (dd : String) (l : List TaskRow) (t : TaskRow)
    (hdd : dd ≠ "") (h : t ∈ dueToStep dd l) : dueToPred dd t = true := by
  unfold dueToStep at h
  rw [if_pos hdd] at h
  exact List.of_mem_filter h

theorem dueFromPred_iff (dd : String) (t : TaskRow) :
    dueFromPred dd t = true ↔
      ∃ d, t.due_date = some d ∧ d ≠ "" ∧ jsGe d dd = true := by
  cases h : t.due_date <;> simp [dueFromPred, h]

theorem dueToPred_iff (dd : String) (t : TaskRow) :
    dueToPred dd t = true ↔
      ∃ d, t.due_date = some d ∧ d ≠ "" ∧ jsLe d dd = true := by
  cases h : t.due_date <;> simp [dueToPred, h]

/-- C6: any task surviving a supplied due-date lower/upper bound has a
present (non-empty) due date inside the inclusive bound — so a task with no
due date is excluded whenever either bound is supplied; and the spec's
example `[A(2024-01-10), B(absent), C(2024-01-20)]` with
`due_date_from = 2024-01-15` keeps exactly `[C]`. -/
theorem dueDateFilter_correct :
    (∀ (f : FilterState) (tasks : List TaskRow) (t : TaskRow),
      t ∈ applyFilters f tasks →
      (f.dueDateFrom ≠ "" →
        ∃ d, t.due_date = some d ∧ d ≠ "" ∧ jsGe d f.dueDateFrom = true) ∧
      (f.dueDateTo ≠ "" →
        ∃ d, t.due_date = some d ∧ d ≠ "" ∧ jsLe d f.dueDateTo = true) ∧
      ((f.dueDateFrom ≠ "" ∨ f.dueDateTo ≠ "") → t.due_date ≠ none)) ∧
    applyFilters dueExampleFilter [taskRowA, taskRowB, taskRowC]
      = [taskRowC] := by
  refine ⟨?_, by decide⟩
  intro f tasks t h
  have ht : t ∈ filterTasks f tasks := (applyFilters_perm f tasks).subset h
  have hto : t ∈ dueFromStep f.dueDateFrom
      (priorityStep f.priorityFilter
        (assigneeStep f.assigneeFilter
          (statusStep f.statusFilter (searchStep f.searchQuery tasks)))) :=
    mem_of_mem_dueToStep _ _ _ ht
  refine ⟨?_, ?_, ?_⟩
  · intro hdd
    exact (dueFromPred_iff _ _).1 (dueFromStep_pred _ _ _ hdd hto)
  · intro hdd
    exact (dueToPred_iff _ _).1 (dueToStep_pred _ _ _ hdd ht)
  · rintro (hdd | hdd)
    · obtain ⟨d, hd, -, -⟩ :=
        (dueFromPred_iff _ _).1 (dueFromStep_pred _ _ _ hdd hto)
      simp [hd]
    · obtain ⟨d, hd, -, -⟩ :=
        (dueToPred_iff _ _).1 (dueToStep_pred _ _ _ hdd ht)
      simp [hd]

/-- Concrete instance of C6 discharging the hypotheses of
`dueDateFilter_correct`: task C passes the `2024-01-15` lower bound with a
present due date. -/
theorem dueDateFilter_correct_witness :
    ∃ d, taskRowC.due_date = some d ∧ d ≠ "" ∧ jsGe d "2024-01-15" = true :=
  (dueDateFilter_correct.1 dueExampleFilter [taskRowA, taskRowB, taskRowC]
      taskRowC (by decide)).1 (by decide)

/-- C7: exporting a filtered/sorted collection yields exactly one row per
task, in pipeline order (row i is the projection of task i), each row in
the fixed 9-column order with the literal placeholders: `Unassigned` for a
missing assignee, `normal` for unset priority, `""` for an absent due date,
`0h` for zero (or absent) tracked time, and `0` for an absent comment
count. -/
theorem exportRows_correct (fmt : String → String) (f : FilterState)
    (tasks : List TaskRow) :
    (exportRows fmt (applyFilters f tasks)).length
        = (applyFilters f tasks).length ∧
    (∀ i : Nat,
      (exportRows fmt (applyFilters f tasks))[i]?
        = ((applyFilters f tasks)[i]?).map (csvRow fmt)) ∧
    (∀ t : TaskRow,
      (csvRow fmt t).length = 9 ∧
      (csvRow fmt t)[0]? = some t.title ∧
      (csvRow fmt t)[1]? = some t.status ∧
      (t.assignee_name = none → (csvRow fmt t)[2]? = some "Unassigned") ∧
      (∀ n, t.assignee_name = some n → n ≠ "" →
        (csvRow fmt t)[2]? = some n) ∧
      (t.priority = none → (csvRow fmt t)[3]? = some "normal") ∧
      (∀ p, t.priority = some p → p ≠ "" → (csvRow fmt t)[3]? = some p) ∧
      (t.due_date = none → (csvRow fmt t)[4]? = some "") ∧
      (∀ d, t.due_date = some d → d ≠ "" →
        (csvRow fmt t)[4]? = some (fmt d)) ∧
      ((t.estimated_time_minutes = none ∨ t.estimated_time_minutes = some 0) →
        (csvRow fmt t)[5]? = some "") ∧
      (∀ n, t.estimated_time_minutes = some n → n ≠ 0 →
        (csvRow fmt t)[5]? = some (formatTime n)) ∧
      ((t.total_tracked_minutes = none ∨ t.total_tracked_minutes = some 0) →
        (csvRow fmt t)[6]? = some "0h") ∧
      (∀ n, t.total_tracked_minutes = some n → n ≠ 0 →
        (csvRow fmt t)[6]? = some (formatTime n)) ∧
      (t.comment_count = none → (csvRow fmt t)[7]? = some "0") ∧
      (∀ n, t.comment_count = some n → (csvRow fmt t)[7]? = some (toString n)) ∧
      (csvRow fmt t)[8]? = some (fmt t.created_at)) := by
  refine ⟨List.length_map _ _, fun i => List.getElem?_map _ _ _, ?_⟩
  intro t
  refine ⟨rfl, rfl, rfl, ?_, ?_, ?_, ?_, ?_, ?_, ?_, ?_, ?_, ?_, ?_, ?_, rfl⟩
  · intro h; simp [csvRow, h]
  · intro n h hn; simp [csvRow, h, hn]
  · intro h; simp [csvRow, h]
  · intro p h hp; simp [csvRow, h, hp]
  · intro h; simp [csvRow, h]
  · intro d h hd; simp [csvRow, h, hd]
  · rintro (h | h) <;> simp [csvRow, h]
  · intro n h hn; simp [csvRow, h, hn]
  · rintro (h | h) <;> simp [csvRow, h]
  · intro n h hn; simp [csvRow, h, hn]
  · intro h; simp [csvRow, h]
  · intro n h; simp [csvRow, h]

/-- Concrete instance of C7 discharging the hypotheses of
`exportRows_correct`: placeholder cells of the all-optional row, exported
through the identity locale renderer. -/
theorem exportRows_correct_witness :
    (csvRow id baseRow)[2]? = some "Unassigned" ∧
    (csvRow id baseRow)[3]? = some "normal" ∧
    (csvRow id baseRow)[4]? = some "" ∧
    (csvRow id baseRow)[6]? = some "0h" ∧
    (csvRow id baseRow)[7]? = some "0" :=
  ⟨((exportRows_correct id {} [baseRow]).2.2 baseRow).2.2.2.1 rfl,
   ((exportRows_correct id {} [baseRow]).2.2 baseRow).2.2.2.2.2.1 rfl,
   ((exportRows_correct id {} [baseRow]).2.2 baseRow).2.2.2.2.2.2.2.1 rfl,
   ((exportRows_correct id {}
       [baseRow]).2.2 baseRow).2.2.2.2.2.2.2.2.2.2.2.1 (Or.inl rfl),
   ((exportRows_correct id {}
       [baseRow]).2.2 baseRow).2.2.2.2.2.2.2.2.2.2.2.2.2.1 rfl⟩

/-- C1 counterexample: `carol` is neither the stored assignee (`alice`) nor
the stored creator (`bob`) of the named task, yet the bulk update reports
no error and changes the task's status — the claimed authorization failure
does not happen on the bulk path. -/
theorem bulkUpdate_noAuthz_counterexample :
    exampleAuthTask.assignee_id ≠ some "carol" ∧
    exampleAuthTask.creator_id ≠ some "carol" ∧
    (bulkUpdateTasks [exampleAuthTask] "carol" ["t1"]
        { status := some "complete" } "2024-02-01T00:00:00.000Z").2 = none ∧
    (bulkUpdateTasks [exampleAuthTask] "carol" ["t1"]
        { status := some "complete" } "2024-02-01T00:00:00.000Z").1
      ≠ [exampleAuthTask] ∧
    ((bulkUpdateTasks [exampleAuthTask] "carol" ["t1"]
        { status := some "complete" } "2024-02-01T00:00:00.000Z").1.head?).map
        (fun t => t.status) = some "complete" := by
  decide

/-- C1 amended: when the acting member is neither the stored assignee nor
the stored creator of a named task, the single-task status and description
mutations fail with the authorization error and leave the store unchanged;
the bulk update, however, performs no per-task assignee/creator check — it
reports no error and applies the update to every named task regardless of
the actor. -/
theorem taskMutationAuthz_amended
    (store : List Task) (actor taskId status description now : String)
    (task : Task)
    (hfind : store.find? (fun t => t.id == taskId) = some task)
    (hna : task.assignee_id ≠ some actor)
    (hnc : task.creator_id ≠ some actor) :
    updateTaskStatus store actor taskId status now
      = (store, some "Not authorized to update this task") ∧
    updateTaskDescription store actor taskId description now
      = (store, some "Not authorized to update this task") ∧
    (∀ (taskIds : List String) (updates : BulkUpdates),
      (bulkUpdateTasks store actor taskIds updates now).2 = none ∧
      (task ∈ store → taskId ∈ taskIds →
        bulkApply updates now task
          ∈ (bulkUpdateTasks store actor taskIds updates now).1)) := by
  have hid : task.id = taskId := by
    have := List.find?_some hfind
    simpa [beq_iff_eq] using this
  refine ⟨?_, ?_, ?_⟩
  · simp [updateTaskStatus, hfind, beq_iff_eq, hna, hnc]
  · simp [updateTaskDescription, hfind, beq_iff_eq, hna, hnc]
  · intro taskIds updates
    refine ⟨rfl, ?_⟩
    intro hmem hids
    have hc : task.id ∈ taskIds := by
      rw [hid]
      exact hids
    have hmap := List.mem_map_of_mem
      (fun t => if taskIds.contains t.id then bulkApply updates now t else t)
      hmem
    simpa [bulkUpdateTasks, hc] using hmap

/-- Concrete instance of C1 (amended) discharging the hypotheses of
`taskMutationAuthz_amended` for actor `carol` against the `alice`/`bob`
task. -/
theorem taskMutationAuthz_amended_witness :
    updateTaskStatus [exampleAuthTask] "carol" "t1" "complete" "now0"
      = ([exampleAuthTask], some "Not authorized to update this task") ∧
    updateTaskDescription [exampleAuthTask] "carol" "t1" "newdesc" "now0"
      = ([exampleAuthTask], some "Not authorized to update this task") ∧
    (bulkUpdateTasks [exampleAuthTask] "carol" ["t1"]
        { status := some "complete" } "now0").2 = none ∧
    bulkApply { status := some "complete" } "now0" exampleAuthTask
      ∈ (bulkUpdateTasks [exampleAuthTask] "carol" ["t1"]
          { status := some "complete" } "now0").1 := by
  have h := taskMutationAuthz_amended [exampleAuthTask] "carol" "t1"
    "complete" "newdesc" "now0" exampleAuthTask (by decide) (by decide)
    (by decide)
  exact ⟨h.1, h.2.1,
    (h.2.2 ["t1"] { status := some "complete" }).1,
    (h.2.2 ["t1"] { status := some "complete" }).2 (by decide) (by decide)⟩

theorem bulkApply_spec (updates : BulkUpdates) (now : String) (t : Task) :
    (bulkApply updates now t).id = t.id ∧
    (bulkApply updates now t).title = t.title ∧
    (bulkApply updates now t).description = t.description ∧
    (bulkApply updates now t).priority = t.priority ∧
    (bulkApply updates now t).due_date = t.due_date ∧
    (bulkApply updates now t).estimated_time_minutes
      = t.estimated_time_minutes ∧
    (bulkApply updates now t).project_id = t.project_id ∧
    (bulkApply updates now t).creator_id = t.creator_id ∧
    (bulkApply updates now t).created_at = t.created_at ∧
    (bulkApply updates now t).updated_at = now ∧
    (updates.status = none → (bulkApply updates now t).status = t.status) ∧
    (∀ s, updates.status = some s → s ≠ "" →
      (bulkApply updates now t).status = s) ∧
    (updates.status = some "" → (bulkApply updates now t).status = t.status) ∧
    (updates.assignee_id = none →
      (bulkApply updates now t).assignee_id = t.assignee_id) ∧
    (∀ a, updates.assignee_id = some a →
      (bulkApply updates now t).assignee_id
        = (if a = "" then none else some a)) := by
  rcases hs : updates.status with _ | s <;>
    rcases ha : updates.assignee_id with _ | a
  · simp [bulkApply, hs, ha]
  · simp [bulkApply, hs, ha]
  · by_cases hse : s = "" <;> simp [bulkApply, hs, ha, hse]
  · by_cases hse : s = "" <;> simp [bulkApply, hs, ha, hse]

/-- C10: the bulk update reports no error; it touches only the named tasks
(rows whose id is not in the list are returned verbatim, at their index);
on every named task it changes only the status (when a status is supplied
and non-empty), the assignee reference (when supplied, the empty value
stored as absent), and the updated timestamp — which is set to `now` even
when the partial update supplies neither status nor assignee; every other
field (title, description, priority, due date, estimated minutes, project
reference, creator reference, creation timestamp, id) is unchanged. -/
theorem bulkUpdate_frame (store : List Task) (actor : String)
    (taskIds : List String) (updates : BulkUpdates) (now : String) :
    (bulkUpdateTasks store actor taskIds updates now).2 = none ∧
    (bulkUpdateTasks store actor taskIds updates now).1.length
      = store.length ∧
    (∀ (i : Nat) (t : Task), store[i]? = some t →
      (t.id ∉ taskIds →
        (bulkUpdateTasks store actor taskIds updates now).1[i]? = some t) ∧
      (t.id ∈ taskIds →
        ∃ t2, (bulkUpdateTasks store actor taskIds updates now).1[i]?
            = some t2 ∧
          t2.id = t.id ∧ t2.title = t.title ∧
          t2.description = t.description ∧ t2.priority = t.priority ∧
          t2.due_date = t.due_date ∧
          t2.estimated_time_minutes = t.estimated_time_minutes ∧
          t2.project_id = t.project_id ∧ t2.creator_id = t.creator_id ∧
          t2.created_at = t.created_at ∧ t2.updated_at = now ∧
          (updates.status = none → t2.status = t.status) ∧
          (∀ s, updates.status = some s → s ≠ "" → t2.status = s) ∧
          (updates.status = some "" → t2.status = t.status) ∧
          (updates.assignee_id = none → t2.assignee_id = t.assignee_id) ∧
          (∀ a, updates.assignee_id = some a →
            t2.assignee_id = (if a = "" then none else some a)))) := by
  refine ⟨rfl, by simp [bulkUpdateTasks], ?_⟩
  intro i t ht
  have hi : (bulkUpdateTasks store actor taskIds updates now).1[i]?
      = some (if taskIds.contains t.id then bulkApply updates now t else t) := by
    simp [bulkUpdateTasks, List.getElem?_map, ht]
  constructor
  · intro hmem
    rw [hi, if_neg (by simpa using hmem)]
  · intro hmem
    refine ⟨bulkApply updates now t, ?_, ?_⟩
    · rw [hi, if_pos (by simpa using hmem)]
    · exact bulkApply_spec updates now t

/-- Concrete instance of C10 discharging the hypotheses of
`bulkUpdate_frame`: the named task keeps every untouched field, gains the
supplied status, stores the empty supplied assignee as absent, and gets the
new timestamp. -/
theorem bulkUpdate_frame_witness :
    ∃ t2,
      (bulkUpdateTasks [exampleAuthTask] "alice" ["t1"]
          { status := some "in_progress", assignee_id := some "" }
          "now1").1[0]? = some t2 ∧
        t2.id = exampleAuthTask.id ∧ t2.title = exampleAuthTask.title ∧
        t2.description = exampleAuthTask.description ∧
        t2.priority = exampleAuthTask.priority ∧
        t2.due_date = exampleAuthTask.due_date ∧
        t2.estimated_time_minutes = exampleAuthTask.estimated_time_minutes ∧
        t2.project_id = exampleAuthTask.project_id ∧
        t2.creator_id = exampleAuthTask.creator_id ∧
        t2.created_at = exampleAuthTask.created_at ∧
        t2.updated_at = "now1" ∧
        t2.status = "in_progress" ∧ t2.assignee_id = none := by
  have h := ((bulkUpdate_frame [exampleAuthTask] "alice" ["t1"]
      { status := some "in_progress", assignee_id := some "" }
      "now1").2.2 0 exampleAuthTask (by decide)).2 (by decide)
  obtain ⟨t2, h1, h2, h3, h4, h5, h6, h7, h8, h9, h10, h11, h12, h13, h14,
    h15, h16⟩ := h
  refine ⟨t2, h1, h2, h3, h4, h5, h6, h7, h8, h9, h10, h11, ?_, ?_⟩
  · exact h13 "in_progress" rfl (by decide)
  · simpa using h16 "" rfl

/-- C4 counterexample: in a team whose only admin is `A`, removing `A`
never fails with the last-admin error — the sole admin actor hits the
self-removal guard first (`Cannot remove yourself`), and every other actor
fails the admin check; the membership is unchanged either way. -/
theorem lastAdminRemoval_counterexample :
    adminCount soloAdminTeam = 1 ∧
    removeMember soloAdminTeam "A" "A"
      = (soloAdminTeam, some "Cannot remove yourself") ∧
    removeMember soloAdminTeam "B" "A"
      = (soloAdminTeam, some "Only admins can remove members") ∧
    removeMember soloAdminTeam "C" "A"
      = (soloAdminTeam, some "Only admins can remove members") ∧
    (removeMember soloAdminTeam "A" "A").2
      ≠ some "Cannot remove the last admin" := by
  decide

/-- C4 amended: in a team with exactly one admin, demoting that admin (by
themselves — the only actor who can pass the admin gate) fails with the
last-admin error; removing them fails too, but with the self-removal error
when attempted by themselves and the admin-gate error for any non-admin
actor, never the last-admin error; membership is unchanged in every failing
case. With two admins, demoting one (by themselves or by the other) and
removing one by the other all succeed. -/
theorem lastAdminGuard_amended
    (ms ms2 : List TeamMembership) (a b a1 a2 : String)
    (hA : memberRole ms a = some "admin")
    (hcount : adminCount ms = 1)
    (hb : memberRole ms b ≠ some "admin")
    (h1 : memberRole ms2 a1 = some "admin")
    (h2 : memberRole ms2 a2 = some "admin")
    (hcount2 : adminCount ms2 = 2)
    (hne : a1 ≠ a2) :
    updateMemberRole ms a a "member"
      = (ms, some "Cannot remove the last admin") ∧
    removeMember ms a a = (ms, some "Cannot remove yourself") ∧
    removeMember ms b a = (ms, some "Only admins can remove members") ∧
    updateMemberRole ms b a "member"
      = (ms, some "Only admins can change member roles") ∧
    (updateMemberRole ms2 a1 a2 "member").2 = none ∧
    (updateMemberRole ms2 a2 a2 "member").2 = none ∧
    (removeMember ms2 a1 a2).2 = none := by
  have hne2 : (a2 == a1) = false := by
    simp [beq_iff_eq]
    exact fun h => hne h.symm
  refine ⟨?_, ?_, ?_, ?_, ?_, ?_, ?_⟩
  · simp [updateMemberRole, hA, hcount]
  · simp [removeMember, hA]
  · simp [removeMember, hb]
  · simp [updateMemberRole, hb]
  · simp [updateMemberRole, h1, hne2]
  · simp [updateMemberRole, h2, hcount2]
  · simp [removeMember, h1, h2, hne2, hcount2]

/-- Concrete instance of C4 (amended) discharging the hypotheses of
`lastAdminGuard_amended` on the one-admin and two-admin teams. -/
theorem lastAdminGuard_amended_witness :
    updateMemberRole soloAdminTeam "A" "A" "member"
      = (soloAdminTeam, some "Cannot remove the last admin") ∧
    removeMember soloAdminTeam "A" "A"
      = (soloAdminTeam, some "Cannot remove yourself") ∧
    (updateMemberRole twoAdminTeam "A1" "A2" "member").2 = none ∧
    (removeMember twoAdminTeam "A1" "A2").2 = none := by
  have h := lastAdminGuard_amended soloAdminTeam twoAdminTeam "A" "B"
    "A1" "A2" (by decide) (by decide) (by decide) (by decide) (by decide)
    (by decide) (by decide)
  exact ⟨h.1, h.2.1, h.2.2.2.2.1, h.2.2.2.2.2.2⟩

theorem map_replace_eq_self (l : List TaskComment) (tid : String)
    (server : TaskComment) (h : ∀ c ∈ l, c.id ≠ tid) :
    l.map (fun c => if c.id = tid then server else c) = l := by
  induction l with
  | nil => rfl
  | cons c rest ih =>
    simp only [List.map_cons, if_neg (h c (List.mem_cons_self c rest)),
      List.cons.injEq, true_and]
    exact ih (fun x hx => h x (List.mem_cons_of_mem _ hx))

theorem filter_ne_eq_self (l : List TaskComment) (tid : String)
    (h : ∀ c ∈ l, c.id ≠ tid) :
    l.filter (fun c => c.id ≠ tid) = l :=
  List.filter_eq_self.mpr (fun c hc => by simpa using h c hc)

/-- C2: submitting a comment optimistically appends exactly one pending
record carrying the temporary identity and the submitted content; on
Gateway success the pending record is replaced in place (same position) by
the authoritative server record, which occurs exactly once; on Gateway
failure the pending record is removed (the collection is exactly the
original), the error is surfaced, and the submitted text and attachments
are restored to the input form. -/
theorem optimisticComment_correct
    (st : CommentsState) (currentUser : Option Profile) (nowMs : Nat)
    (nowIso : String) (server : TaskComment) (msg : String)
    (hguard : ¬(jsTrim (stripTags st.newComment) = ""
      ∧ st.uploadedFiles = []))
    (hfresh : ∀ c ∈ st.comments, c.id ≠ "temp-" ++ toString nowMs)
    (hsrv : ∀ c ∈ st.comments, c.id ≠ server.id) :
    ((optimisticApply st
        (optimisticComment nowMs nowIso st.newComment st.uploadedFiles
          currentUser)).comments
      = st.comments
        ++ [optimisticComment nowMs nowIso st.newComment st.uploadedFiles
              currentUser] ∧
     (optimisticComment nowMs nowIso st.newComment st.uploadedFiles
        currentUser).id = "temp-" ++ toString nowMs ∧
     (optimisticComment nowMs nowIso st.newComment st.uploadedFiles
        currentUser).content = st.newComment ∧
     (optimisticApply st
        (optimisticComment nowMs nowIso st.newComment st.uploadedFiles
          currentUser)).comments.length = st.comments.length + 1) ∧
    handleSubmit st currentUser nowMs nowIso (.ok server)
      = { st with
          comments := st.comments ++ [server]
          newComment := ""
          uploadedFiles := []
          error := none
          loading := false } ∧
    ((handleSubmit st currentUser nowMs nowIso
        (.ok server)).comments.filter (fun c => c.id == server.id)).length
      = 1 ∧
    handleSubmit st currentUser nowMs nowIso (.fail msg)
      = { st with error := some msg, loading := false } := by
  have hpid : (optimisticComment nowMs nowIso st.newComment st.uploadedFiles
      currentUser).id = "temp-" ++ toString nowMs := rfl
  have hsucc : handleSubmit st currentUser nowMs nowIso (.ok server)
      = { st with
          comments := st.comments ++ [server]
          newComment := ""
          uploadedFiles := []
          error := none
          loading := false } := by
    simp only [handleSubmit, if_neg hguard, resolveSubmit, optimisticApply]
    simp only [List.map_append, List.map_cons, List.map_nil, if_pos rfl]
    rw [hpid, map_replace_eq_self st.comments _ server hfresh]
    simp
  refine ⟨⟨rfl, rfl, rfl, by simp [optimisticApply]⟩, hsucc, ?_, ?_⟩
  · rw [hsucc]
    simp only [List.filter_append]
    rw [show (st.comments.filter (fun c => c.id == server.id)) = [] from
      List.filter_eq_nil_iff.mpr (fun c hc => by simpa using hsrv c hc)]
    simp
  · simp only [handleSubmit, if_neg hguard, resolveSubmit, optimisticApply]
    simp only [List.filter_append, List.filter_cons, List.filter_nil]
    rw [hpid, filter_ne_eq_self st.comments _ hfresh]
    simp

/-- Concrete instance of C2 discharging the hypotheses of
`optimisticComment_correct`: submitting `hello` from an empty thread, with
Gateway success returning identity `srv-1` and with Gateway failure. -/
theorem optimisticComment_correct_witness :
    handleSubmit exampleCommentState (some ⟨"Dana", "u1"⟩) 17
        "2024-03-01T00:00:00.000Z" (.ok serverComment)
      = { exampleCommentState with
          comments := [serverComment]
          newComment := ""
          uploadedFiles := []
          error := none
          loading := false } ∧
    handleSubmit exampleCommentState (some ⟨"Dana", "u1"⟩) 17
        "2024-03-01T00:00:00.000Z" (.fail "Network error")
      = { exampleCommentState with
          error := some "Network error"
          loading := false } := by
  have h := optimisticComment_correct exampleCommentState
    (some ⟨"Dana", "u1"⟩) 17 "2024-03-01T00:00:00.000Z" serverComment
    "Network error" (by decide) (by simp [exampleCommentState])
    (by simp [exampleCommentState])
  exact ⟨by simpa using h.2.1, h.2.2.2⟩

end ProjectMgmt
